import Mathlib

/-!
Verification development for the vicg request-processing pipeline of the
lura fork: the plugin pipeline builder/executor (`defaultVicgFactory`),
the proxy request/response envelopes (`proxy/request.go`), and the
identify-check example plugin.

The Go code is shallowly embedded: pure functions become Lean functions,
pointer mutation becomes explicit state passing, and Go's standard-library
`sort.Slice` is embedded as the pattern-defeating quicksort (`pdqsort`)
that implements it in the Go runtime (Go >= 1.19, `sort/zsortfunc.go`),
because the ordering it produces on equal elements is observable behaviour
of `defaultVicgFactory.New`.
-/

namespace Lura

/-! ## Go `sort.Slice` (pdqsort, `sort/zsortfunc.go`)

`sort.Slice(x, less)` calls `pdqsort_func(lessSwap{less, swap}, 0, n, bits.Len(uint(n)))`.
All loops below are fuel-indexed; the fuel given at the top level is far
larger than the number of iterations any call can perform, so the
embedding computes exactly what the Go code computes. -/

section SortSlice

variable {α : Type} [Inhabited α]

/-- Read index `i` of the slice (out-of-range reads cannot occur for the
in-range indices pdqsort uses; `default` keeps the function total). -/
def nthd (d : List α) (i : Nat) : α := d.getD i default

/-- `data.Swap(i, j)`. -/
def swapd (d : List α) (i j : Nat) : List α :=
  let xi := nthd d i
  let xj := nthd d j
  (d.set i xj).set j xi

variable (less : α → α → Bool)

/-- `data.Less(i, j)`. -/
def lessIdx (d : List α) (i j : Nat) : Bool := less (nthd d i) (nthd d j)

/-- Inner loop of `insertionSort_func`: `for j := i; j > a && data.Less(j, j-1); j-- { data.Swap(j, j-1) }`. -/
def insInner (a : Nat) : List α → Nat → List α
  | d, 0 => d
  | d, j+1 =>
    if a < j+1 && lessIdx less d (j+1) j then insInner a (swapd d (j+1) j) j else d

/-- Outer loop of `insertionSort_func`: `for i := a + 1; i < b; i++`. -/
def insOuter (a b : Nat) : List α → Nat → Nat → List α
  | d, _, 0 => d
  | d, i, fuel+1 =>
    if i < b then insOuter a b (insInner less a d i) (i+1) fuel else d

/-- `insertionSort_func(data, a, b)`. -/
def insertionSortRange (d : List α) (a b : Nat) : List α :=
  insOuter less a b d (a+1) b

/-- `siftDown_func(data, lo, hi, first)` with `root` as loop state. -/
def siftDownLoop (first hi : Nat) : List α → Nat → Nat → List α
  | d, _, 0 => d
  | d, root, fuel+1 =>
    let child := 2*root + 1
    if hi ≤ child then d
    else
      let child := if child+1 < hi && lessIdx less d (first+child) (first+child+1)
                   then child+1 else child
      if !(lessIdx less d (first+root) (first+child)) then d
      else siftDownLoop first hi (swapd d (first+root) (first+child)) child fuel

/-- First loop of `heapSort_func`: `for i := (hi-1)/2; i >= 0; i--` — the
argument `c` is one past the first index processed. -/
def heapInit (first hi : Nat) : List α → Nat → List α
  | d, 0 => d
  | d, c+1 => heapInit first hi (siftDownLoop less first hi d c (hi+1)) c

/-- Second loop of `heapSort_func`: `for i := hi - 1; i >= 0; i-- { Swap(first, first+i); siftDown(data, lo, i, first) }`. -/
def heapExtract (first : Nat) : List α → Nat → List α
  | d, 0 => d
  | d, i+1 =>
    let d := swapd d first (first+i)
    let d := siftDownLoop less first i d 0 (i+1)
    heapExtract first d i

/-- `heapSort_func(data, a, b)`. -/
def heapSortRange (d : List α) (a b : Nat) : List α :=
  let first := a
  let hi := b - a
  heapExtract less first (heapInit less first hi d ((hi-1)/2 + 1)) hi

/-- `order2_func`: orders two indices, counting would-be swaps. -/
def order2 (d : List α) (a b swaps : Nat) : Nat × Nat × Nat :=
  if lessIdx less d b a then (b, a, swaps+1) else (a, b, swaps)

/-- `median_func`: index of the median of three, threading the swap counter. -/
def medianIdx (d : List α) (a b c swaps : Nat) : Nat × Nat :=
  let (a1, b1, s1) := order2 less d a b swaps
  let (b2, _, s2) := order2 less d b1 c s1
  let (_, b3, s3) := order2 less d a1 b2 s2
  (b3, s3)

/-- `medianAdjacent_func`: median of `i-1, i, i+1`. -/
def medianAdjacent (d : List α) (i swaps : Nat) : Nat × Nat :=
  medianIdx less d (i-1) i (i+1) swaps

/-- Sortedness hints of `choosePivot_func`: 0 = unknown, 1 = increasing, 2 = decreasing. -/
def chosenHint (swaps : Nat) : Nat :=
  if swaps = 0 then 1 else if swaps = 12 then 2 else 0

/-- `choosePivot_func(data, a, b)`: returns `(pivot, hint)`. -/
def choosePivot (d : List α) (a b : Nat) : Nat × Nat :=
  let l := b - a
  let i := a + l/4*1
  let j := a + l/4*2
  let k := a + l/4*3
  if 8 ≤ l then
    let (i, j, k, swaps) :=
      if 50 ≤ l then
        let (i', s1) := medianAdjacent less d i 0
        let (j', s2) := medianAdjacent less d j s1
        let (k', s3) := medianAdjacent less d k s2
        (i', j', k', s3)
      else (i, j, k, 0)
    let (j', swaps') := medianIdx less d i j k swaps
    (j', chosenHint swaps')
  else (j, 1)

/-- `reverseRange_func` loop: `for i < j { Swap(i, j); i++; j-- }`. -/
def revLoop : List α → Nat → Nat → Nat → List α
  | d, _, _, 0 => d
  | d, i, j, fuel+1 =>
    if i < j then revLoop (swapd d i j) (i+1) (j-1) fuel else d

/-- `reverseRange_func(data, a, b)`. -/
def reverseRange (d : List α) (a b : Nat) : List α :=
  revLoop d a (b-1) b

/-- Scan of `partialInsertionSort_func`: `for i < b && !data.Less(i, i-1) { i++ }`; returns the final `i`. -/
def pisAdvance (d : List α) (b : Nat) : Nat → Nat → Nat
  | i, 0 => i
  | i, fuel+1 =>
    if i < b && !(lessIdx less d i (i-1)) then pisAdvance d b (i+1) fuel else i

/-- Left shift of `partialInsertionSort_func`: `for j := i-1; j >= 1; j-- { if !Less(j, j-1) break; Swap(j, j-1) }` (called with the start index). -/
def pisShiftLeft : List α → Nat → List α
  | d, 0 => d
  | d, j+1 => if lessIdx less d (j+1) j then pisShiftLeft (swapd d (j+1) j) j else d

/-- Right shift of `partialInsertionSort_func`: `for j := i+1; j < b; j++ { if !Less(j, j-1) break; Swap(j, j-1) }`. -/
def pisShiftRight (b : Nat) : List α → Nat → Nat → List α
  | d, _, 0 => d
  | d, j, fuel+1 =>
    if j < b && lessIdx less d j (j-1) then pisShiftRight b (swapd d j (j-1)) (j+1) fuel else d

/-- Step loop of `partialInsertionSort_func` (at most `maxSteps = 5` steps);
returns the slice and whether it is now sorted. -/
def pisSteps (a b : Nat) : List α → Nat → Nat → List α × Bool
  | d, _, 0 => (d, false)
  | d, i, steps+1 =>
    let i := pisAdvance less d b i b
    if i = b then (d, true)
    else if b - a < 50 then (d, false)
    else
      let d := swapd d i (i-1)
      let d := if 2 ≤ i - a then pisShiftLeft less d (i-1) else d
      let d := if 2 ≤ b - i then pisShiftRight less b d (i+1) b else d
      pisSteps a b d i steps

/-- `partialInsertionSort_func(data, a, b)`. -/
def partInsSort (d : List α) (a b : Nat) : List α × Bool :=
  pisSteps less a b d (a+1) 5

/-- `bits.Len(uint(n))`. -/
def bitsLen (n : Nat) : Nat := if n = 0 then 0 else Nat.log2 n + 1

/-- `nextPowerOfTwo(length)` from Go's sort package: `1 << bits.Len(uint(length))`. -/
def nextPowerOfTwo (length : Nat) : Nat := 1 <<< bitsLen length

/-- One step of the `xorshift` generator on a 64-bit state. -/
def xorshiftNext (v : Nat) : Nat :=
  let v := (v ^^^ (v <<< 13)) % 2^64
  let v := v ^^^ (v >>> 7)
  (v ^^^ (v <<< 17)) % 2^64

/-- Swap loop of `breakPatterns_func` (three iterations). -/
def bpLoop (a length idx modulus : Nat) : List α → Nat → Nat → List α
  | d, _, 0 => d
  | d, rnd, fuel+1 =>
    let i := 3 - (fuel+1)
    let rnd := xorshiftNext rnd
    let other := rnd &&& (modulus - 1)
    let other := if length ≤ other then other - length else other
    bpLoop a length idx modulus (swapd d (idx-1+i) (a+other)) rnd fuel

/-- `breakPatterns_func(data, a, b)`. -/
def breakPatterns (d : List α) (a b : Nat) : List α :=
  let length := b - a
  if 8 ≤ length then
    let modulus := nextPowerOfTwo length
    let idx := a + (length/4)*2 - 1
    bpLoop a length idx modulus d length 3
  else d

/-- An advance loop of `partition_func`: `for i <= j && data.Less(i, a) { i++ }`. -/
def partAdvI (d : List α) (a j : Nat) : Nat → Nat → Nat
  | i, 0 => i
  | i, fuel+1 => if i ≤ j && lessIdx less d i a then partAdvI d a j (i+1) fuel else i

/-- A retreat loop of `partition_func`: `for i <= j && !data.Less(j, a) { j-- }`. -/
def partAdvJ (d : List α) (a i : Nat) : Nat → Nat → Nat
  | j, 0 => j
  | j, fuel+1 => if i ≤ j && !(lessIdx less d j a) then partAdvJ d a i (j-1) fuel else j

/-- Main loop of `partition_func`; returns the slice and the final `j`. -/
def partLoop (a b : Nat) : List α → Nat → Nat → Nat → List α × Nat
  | d, _, j, 0 => (d, j)
  | d, i, j, fuel+1 =>
    let i := partAdvI less d a j i b
    let j := partAdvJ less d a i j b
    if j < i then (d, j)
    else partLoop a b (swapd d i j) (i+1) (j-1) fuel

/-- `partition_func(data, a, b, pivot)`: returns `(slice, newpivot, alreadyPartitioned)`. -/
def partition (d : List α) (a b pivot : Nat) : List α × Nat × Bool :=
  let d := swapd d a pivot
  let i := a+1
  let j := b-1
  let i := partAdvI less d a j i b
  let j := partAdvJ less d a i j b
  if j < i then (swapd d j a, j, true)
  else
    let d := swapd d i j
    let (d, j) := partLoop less a b d (i+1) (j-1) b
    (swapd d j a, j, false)

/-- Advance loop of `partitionEqual_func`: `for i <= j && !data.Less(a, i) { i++ }`. -/
def peAdvI (d : List α) (a j : Nat) : Nat → Nat → Nat
  | i, 0 => i
  | i, fuel+1 => if i ≤ j && !(lessIdx less d a i) then peAdvI d a j (i+1) fuel else i

/-- Retreat loop of `partitionEqual_func`: `for i <= j && data.Less(a, j) { j-- }`. -/
def peAdvJ (d : List α) (a i : Nat) : Nat → Nat → Nat
  | j, 0 => j
  | j, fuel+1 => if i ≤ j && lessIdx less d a j then peAdvJ d a i (j-1) fuel else j

/-- Main loop of `partitionEqual_func`; returns the slice and the final `i`. -/
def peLoop (a b : Nat) : List α → Nat → Nat → Nat → List α × Nat
  | d, i, _, 0 => (d, i)
  | d, i, j, fuel+1 =>
    let i := peAdvI less d a j i b
    let j := peAdvJ less d a i j b
    if j < i then (d, i)
    else peLoop a b (swapd d i j) (i+1) (j-1) fuel

/-- `partitionEqual_func(data, a, b, pivot)`: returns `(slice, newpivot)`. -/
def partitionEqual (d : List α) (a b pivot : Nat) : List α × Nat :=
  let d := swapd d a pivot
  peLoop less a b d (a+1) (b-1) b

/-- `pdqsort_func(data, a, b, limit)`. The `wb`/`wp` arguments carry the
`wasBalanced`/`wasPartitioned` loop state (both `true` on function entry);
the iterative `for` loop of the Go code is unfolded into tail recursion on
`fuel`. -/
def pdqsortRec : Nat → List α → Nat → Nat → Nat → Bool → Bool → List α
  | 0, d, _, _, _, _, _ => d
  | fuel+1, d, a, b, limit, wb, wp =>
    let length := b - a
    if length ≤ 12 then insertionSortRange less d a b
    else if limit = 0 then heapSortRange less d a b
    else
      let d := if wb then d else breakPatterns d a b
      let limit := if wb then limit else limit - 1
      let (pivot, hint) := choosePivot less d a b
      let d := if hint = 2 then reverseRange d a b else d
      let pivot := if hint = 2 then (b-1) - (pivot - a) else pivot
      let hint := if hint = 2 then 1 else hint
      let (d, done) := if wb && wp && hint = 1 then partInsSort less d a b else (d, false)
      if done then d
      else if 0 < a && !(lessIdx less d (a-1) pivot) then
        let (d, mid) := partitionEqual less d a b pivot
        pdqsortRec fuel d mid b limit wb wp
      else
        let (d, mid, already) := partition less d a b pivot
        let wp := already
        let wb := decide (length / 8 ≤ min (mid - a) (b - mid))
        if mid - a < b - mid then
          let d := pdqsortRec fuel d a mid limit true true
          pdqsortRec fuel d (mid+1) b limit wb wp
        else
          let d := pdqsortRec fuel d (mid+1) b limit true true
          pdqsortRec fuel d a mid limit wb wp

/-- `sort.Slice(d, less)` for a slice whose `Less(i, j)` compares the
elements at `i` and `j` with `less`, as `defaultVicgFactory.New` does. -/
def sortSlice (d : List α) : List α :=
  pdqsortRec less (2 * d.length + 64) d 0 d.length (bitsLen d.length) true true

end SortSlice

/-! ## JSON values and `encoding/json.Unmarshal` into `map[string]interface{}`

`Response.Write` decodes its byte-slice argument with `json.Unmarshal` into a
fresh `map[string]interface{}`. JSON values are embedded as `GoVal`; numbers
keep their literal text (Go would store a `float64`, whose exact value never
matters to any claim). The parser below models `encoding/json` on the JSON
grammar (strings with the standard escapes and non-surrogate `\u` forms,
no surrogate pairs); object keys are deduplicated last-wins, as assignment
into a Go map is. Byte slices are modelled as strings of their characters. -/

/-- A decoded `interface{}` value produced by `encoding/json`. -/
inductive GoVal : Type
  | null : GoVal
  | boolean : Bool → GoVal
  | str : String → GoVal
  | num : String → GoVal
  | arr : List GoVal → GoVal
  | obj : List (String × GoVal) → GoVal

instance : Inhabited GoVal := ⟨GoVal.null⟩

/-- JSON whitespace. -/
def isWsChar (c : Char) : Bool := c = ' ' || c = '\t' || c = '\n' || c = '\r'

/-- Drop leading JSON whitespace. -/
def skipWs : List Char → List Char
  | [] => []
  | c :: cs => if isWsChar c then skipWs cs else c :: cs

/-- Value of one hex digit. -/
def hexVal (c : Char) : Option Nat :=
  if '0' ≤ c && c ≤ '9' then some (c.toNat - 48)
  else if 'a' ≤ c && c ≤ 'f' then some (c.toNat - 97 + 10)
  else if 'A' ≤ c && c ≤ 'F' then some (c.toNat - 65 + 10)
  else none

/-- Parse exactly four hex digits. -/
def parseHex4 : List Char → Option (Nat × List Char)
  | c1 :: c2 :: c3 :: c4 :: rest =>
    match hexVal c1, hexVal c2, hexVal c3, hexVal c4 with
    | some a, some b, some c, some d => some (((a*16 + b)*16 + c)*16 + d, rest)
    | _, _, _, _ => none
  | _ => none

/-- Body of a JSON string, after the opening quote; returns the decoded
characters and the input after the closing quote. -/
def parseStringBody : Nat → List Char → Option (List Char × List Char)
  | 0, _ => none
  | _, [] => none
  | fuel+1, c :: cs =>
    if c.toNat = 34 then some ([], cs)
    else if c.toNat = 92 then
      match cs with
      | [] => none
      | e :: cs2 =>
        let esc : Option (Char × List Char) :=
          if e.toNat = 34 then some (Char.ofNat 34, cs2)
          else if e.toNat = 92 then some (Char.ofNat 92, cs2)
          else if e = '/' then some ('/', cs2)
          else if e = 'n' then some ('\n', cs2)
          else if e = 't' then some ('\t', cs2)
          else if e = 'r' then some ('\r', cs2)
          else if e = 'b' then some (Char.ofNat 8, cs2)
          else if e = 'f' then some (Char.ofNat 12, cs2)
          else if e = 'u' then
            match parseHex4 cs2 with
            | some (n, rest) =>
              if 0xD800 ≤ n && n ≤ 0xDFFF then none else some (Char.ofNat n, rest)
            | none => none
          else none
        match esc with
        | none => none
        | some (ch, rest) =>
          match parseStringBody fuel rest with
          | none => none
          | some (s, r) => some (ch :: s, r)
    else if c.toNat < 32 then none
    else
      match parseStringBody fuel cs with
      | none => none
      | some (s, r) => some (c :: s, r)

/-- Leading decimal digits of the input. -/
def spanDigits : List Char → List Char × List Char
  | [] => ([], [])
  | c :: cs =>
    if c.isDigit then
      let (ds, rest) := spanDigits cs
      (c :: ds, rest)
    else ([], c :: cs)

/-- Parse a JSON number literal, returning its text. -/
def parseNumber (cs : List Char) : Option (String × List Char) :=
  let (sign, cs1) :=
    match cs with
    | '-' :: rest => (['-'], rest)
    | _ => (([] : List Char), cs)
  match cs1 with
  | [] => none
  | c :: rest =>
    if !c.isDigit then none
    else
      let (intPart, cs2) :=
        if c = '0' then ([c], rest)
        else
          let (ds, r) := spanDigits rest
          (c :: ds, r)
      let fracRes : Option (List Char × List Char) :=
        match cs2 with
        | '.' :: r =>
          let (ds, r2) := spanDigits r
          if ds = [] then none else some ('.' :: ds, r2)
        | _ => some ([], cs2)
      match fracRes with
      | none => none
      | some (fracPart, cs3) =>
        let expRes : Option (List Char × List Char) :=
          match cs3 with
          | c3 :: r =>
            if c3 = 'e' || c3 = 'E' then
              let (sgn, r2) :=
                match r with
                | '+' :: r3 => (['+'], r3)
                | '-' :: r3 => (['-'], r3)
                | _ => (([] : List Char), r)
              let (ds, r3) := spanDigits r2
              if ds = [] then none else some (c3 :: sgn ++ ds, r3)
            else some ([], c3 :: r)
          | [] => some ([], [])
        match expRes with
        | none => none
        | some (expPart, cs4) =>
          some (String.mk (sign ++ intPart ++ fracPart ++ expPart), cs4)

/-- Replace the binding of `k` (last write wins), as assignment into a Go map. -/
def upsert : List (String × GoVal) → String → GoVal → List (String × GoVal)
  | [], k, v => [(k, v)]
  | (k', v') :: rest, k, v =>
    if k' = k then (k', v) :: rest else (k', v') :: upsert rest k v

mutual

/-- Parse one JSON value (leading whitespace allowed). -/
def parseValue : Nat → List Char → Option (GoVal × List Char)
  | 0, _ => none
  | fuel+1, cs =>
    match skipWs cs with
    | [] => none
    | c :: rest =>
      if c = 'n' then
        match rest with
        | 'u' :: 'l' :: 'l' :: r => some (GoVal.null, r)
        | _ => none
      else if c = 't' then
        match rest with
        | 'r' :: 'u' :: 'e' :: r => some (GoVal.boolean true, r)
        | _ => none
      else if c = 'f' then
        match rest with
        | 'a' :: 'l' :: 's' :: 'e' :: r => some (GoVal.boolean false, r)
        | _ => none
      else if c.toNat = 34 then
        match parseStringBody (rest.length + 1) rest with
        | none => none
        | some (s, r) => some (GoVal.str (String.mk s), r)
      else if c.toNat = 123 then parseObject fuel (skipWs rest)
      else if c = '[' then parseArray fuel (skipWs rest)
      else if c = '-' || c.isDigit then
        match parseNumber (c :: rest) with
        | none => none
        | some (lit, r) => some (GoVal.num lit, r)
      else none

/-- Parse a JSON object after the opening brace and leading whitespace. -/
def parseObject : Nat → List Char → Option (GoVal × List Char)
  | 0, _ => none
  | fuel+1, cs =>
    match cs with
    | [] => none
    | c :: rest =>
      if c.toNat = 125 then some (GoVal.obj [], rest)
      else parseMembers fuel [] (c :: rest)

/-- Parse the members of a JSON object (at a key position). -/
def parseMembers : Nat → List (String × GoVal) → List Char → Option (GoVal × List Char)
  | 0, _, _ => none
  | fuel+1, acc, cs =>
    match skipWs cs with
    | [] => none
    | c :: rest =>
      if c.toNat = 34 then
        match parseStringBody (rest.length + 1) rest with
        | none => none
        | some (key, r1) =>
          match skipWs r1 with
          | ':' :: r2 =>
            match parseValue fuel r2 with
            | none => none
            | some (v, r3) =>
              let acc := upsert acc (String.mk key) v
              match skipWs r3 with
              | ',' :: r4 => parseMembers fuel acc r4
              | c2 :: r4 => if c2.toNat = 125 then some (GoVal.obj acc, r4) else none
              | [] => none
          | _ => none
      else none

/-- Parse a JSON array after the opening bracket and leading whitespace. -/
def parseArray : Nat → List Char → Option (GoVal × List Char)
  | 0, _ => none
  | fuel+1, cs =>
    match cs with
    | ']' :: rest => some (GoVal.arr [], rest)
    | _ => parseElems fuel [] cs

/-- Parse the elements of a JSON array (at a value position). -/
def parseElems : Nat → List GoVal → List Char → Option (GoVal × List Char)
  | 0, _, _ => none
  | fuel+1, acc, cs =>
    match parseValue fuel cs with
    | none => none
    | some (v, r) =>
      match skipWs r with
      | ',' :: r2 => parseElems fuel (acc ++ [v]) r2
      | ']' :: r2 => some (GoVal.arr (acc ++ [v]), r2)
      | _ => none

end

/-- `json.Unmarshal(b, &data)` for `data : map[string]interface{}`: the input
must be one JSON object with nothing but whitespace after it. -/
def jsonUnmarshalObject (s : String) : Except String (List (String × GoVal)) :=
  match parseValue (s.length + 8) s.data with
  | none => Except.error "unexpected end of JSON input or invalid character"
  | some (v, rest) =>
    if skipWs rest = ([] : List Char) then
      match v with
      | GoVal.obj m => Except.ok m
      | _ => Except.error "json: cannot unmarshal value into Go map"
    else Except.error "invalid character after top-level value"

/-! ## `proxy` package: request and response envelopes (`proxy/request.go`)

Go reference values (`*url.URL`, the `url.Values` map, `io.ReadCloser`
bodies, and the three free-form maps `Data`/`Private`/`Reserved`) are
modelled as addresses (`Option Nat`, `none` = `nil`); only bodies need
heap contents for the claims, so the heap is a list of `BodyObj` indexed
by address. `Headers` and `Params` are modelled by their contents (the
code deep-copies them entry by entry, which on values is the identity). -/

/-- The state of an `io.ReadCloser` body: its bytes, the read position and
whether `Close` was called. -/
structure BodyObj where
  content : List Nat
  pos : Nat
  closed : Bool
deriving DecidableEq, Repr

instance : Inhabited BodyObj := ⟨{ content := [], pos := 0, closed := false }⟩

/-- `proxy.Request` (the struct of `proxy/request.go`). `privData` stands for
the Go field `Private`. -/
structure Request where
  method : String
  url : Option Nat
  query : Option Nat
  path : String
  body : Option Nat
  params : List (String × String)
  headers : List (String × List String)
  data : Option Nat
  privData : Option Nat
  reserved : Option Nat
  remoteAddr : String
  contentLength : Int
deriving DecidableEq, Repr

instance : Inhabited Request :=
  ⟨{ method := "", url := none, query := none, path := "", body := none,
     params := [], headers := [], data := none, privData := none,
     reserved := none, remoteAddr := "", contentLength := 0 }⟩

/-- `proxy.Metadata`: the response status code and headers, as used by
`defaultVicgFactory.New` and `Response.WriteHeader`/`Header`. -/
structure Metadata where
  headers : List (String × List String)
  statusCode : Int
deriving DecidableEq

/-- `proxy.Response`: the fields `Data`, `IsComplete` and `Metadata` used by
the pipeline executor and `Response.Write`. -/
structure Response where
  data : List (String × GoVal)
  isComplete : Bool
  metadata : Metadata

instance : Inhabited Response :=
  ⟨{ data := [], isComplete := false, metadata := { headers := [], statusCode := 0 } }⟩

/-- `validHeaderFieldByte` of `net/textproto`: RFC 7230 token characters. -/
def validHeaderFieldChar (c : Char) : Bool :=
  let n := c.toNat
  (48 ≤ n && n ≤ 57) || (65 ≤ n && n ≤ 90) || (97 ≤ n && n ≤ 122) ||
  n = 33 || n = 35 || n = 36 || n = 37 || n = 38 || n = 39 || n = 42 ||
  n = 43 || n = 45 || n = 46 || n = 94 || n = 95 || n = 96 || n = 124 || n = 126

/-- Character loop of `textproto.canonicalMIMEHeaderKey`: uppercase at the
start and after each hyphen, lowercase elsewhere. -/
def canonLoop : Bool → List Char → List Char
  | _, [] => []
  | upper, c :: cs =>
    let c' := if upper && c.isLower then c.toUpper
              else if !upper && c.isUpper then c.toLower
              else c
    c' :: canonLoop (c' = '-') cs

/-- `textproto.CanonicalMIMEHeaderKey`: keys with a non-token byte are
returned unchanged, otherwise the canonical capitalization. -/
def canonicalMIMEHeaderKey (s : String) : String :=
  if s.data.all validHeaderFieldChar then String.mk (canonLoop true s.data) else s

/-- `textproto.MIMEHeader.Get` on the request headers: first value under the
canonical key, or the empty string. -/
def mimeHeaderGet (headers : List (String × List String)) (key : String) : String :=
  match headers.lookup (canonicalMIMEHeaderKey key) with
  | none => ""
  | some [] => ""
  | some (v :: _) => v

/-- `Request.HeaderGet` (`proxy/request.go`). -/
def Request.headerGet (r : Request) (key : String) : String :=
  mimeHeaderGet r.headers key

/-- `Request.Clone` (`proxy/request.go`): a shallow copy of eight fields; the
struct literal leaves `Data`, `Private`, `Reserved` and `ContentLength` at
their zero values. -/
def Request.clone (r : Request) : Request :=
  { method := r.method
    url := r.url
    query := r.query
    path := r.path
    body := r.body
    params := r.params
    headers := r.headers
    data := none
    privData := none
    reserved := none
    remoteAddr := r.remoteAddr
    contentLength := 0 }

/-- `proxy.CloneRequestHeaders`: a fresh map with a copied slice per key;
on the modelled contents this copy is entrywise identity. -/
def cloneRequestHeaders (headers : List (String × List String)) : List (String × List String) :=
  headers.map (fun kv => (kv.1, kv.2.map (fun v => v)))

/-- `proxy.CloneRequestParams`: a fresh map with the same entries. -/
def cloneRequestParams (params : List (String × String)) : List (String × String) :=
  params.map (fun kv => (kv.1, kv.2))

/-- `proxy.CloneRequest`. It takes the request by pointer and, when the body
is non-nil, mutates it: `buf.ReadFrom(r.Body)` drains the body,
`r.Body.Close()` closes it, and `r.Body` is re-pointed at a fresh reader
over the buffered bytes; the clone gets its own fresh reader over the same
bytes. Returns `(heap, r after the call, returned clone)`. -/
def cloneRequest (r : Request) (heap : List BodyObj) : List BodyObj × Request × Request :=
  let clone := r.clone
  let clone := { clone with
                 headers := cloneRequestHeaders r.headers
                 params := cloneRequestParams r.params }
  match r.body with
  | none => (heap, r, clone)
  | some a =>
    let obj := heap.getD a default
    let bytes := obj.content.drop obj.pos
    let heap := heap.set a { obj with pos := obj.content.length, closed := true }
    let aOrig := heap.length
    let heap := heap ++ [{ content := bytes, pos := 0, closed := false }]
    let aClone := heap.length
    let heap := heap ++ [{ content := bytes, pos := 0, closed := false }]
    (heap, { r with body := some aOrig }, { clone with body := some aClone })

/-- `Response.Write` (`proxy/request.go`): unmarshal the bytes into a fresh
map; on error return `(0, err)` without touching the response, otherwise
install the map as `Data` and return `(len(b), nil)`. -/
def Response.write (resp : Response) (b : String) : Response × Int × Option String :=
  match jsonUnmarshalObject b with
  | Except.error e => (resp, 0, some e)
  | Except.ok m => ({ resp with data := m }, (b.length : Int), none)

/-! ## `vicg` package: plugin pipeline builder and executor

A `VicgPlugin` interface value is abstracted by its two methods. The
`context.Context` argument of `HandleHTTPMessage` is opaque to every claim
and is dropped; mutation through the `*proxy.Request` and `*proxy.Response`
pointers becomes returning the updated envelopes. `InfraAPI` is an empty
interface, modelled as an opaque unit. -/

/-- `vicg.InfraAPI` (an empty interface). -/
def InfraAPI : Type := Unit

/-- Modelled from the spec: a Plugin Declaration
`{name: string, priority: integer, config: opaque key-value mapping}` —
the fields `Name` and `Index` of the external `config.PluginConfig` that
`defaultVicgFactory.New` and the identify-check factory read; the opaque
config mapping is read by no modelled code and is omitted. -/
structure PluginConfig where
  name : String
  index : Int
deriving DecidableEq, Repr

/-- Modelled from the spec: an Endpoint Descriptor owning an ordered list of
Plugin Declarations — the field `Plugins` of the external
`config.EndpointConfig` read by `defaultVicgFactory.New`. -/
structure EndpointConfig where
  plugins : List PluginConfig

/-- A `vicg.VicgPlugin` interface value: `HandleHTTPMessage` and `Priority`. -/
structure VicgPlugin where
  handle : Request → Response → Request × Response × Option String
  priority : Int

instance : Inhabited VicgPlugin :=
  ⟨{ handle := fun req resp => (req, resp, none), priority := 0 }⟩

/-- Errors produced while building a pipeline. `pluginNotFound name` stands
for the Go error `fmt.Errorf("the plugin not found", namespace)` of
`getPluginFactory` (its message names the missing plugin); `factoryError`
carries any error a plugin factory itself returns. -/
inductive BuildError : Type
  | pluginNotFound : String → BuildError
  | factoryError : String → BuildError
deriving DecidableEq, Repr

/-- A `vicg.VicgPluginFactory` interface value: its `New` method. -/
def VicgPluginFactory : Type :=
  PluginConfig → InfraAPI → Except BuildError VicgPlugin

/-- The `pluginFactory` map of `defaultVicgFactory`, keyed by plugin name. -/
def FactoryMap : Type := List (String × VicgPluginFactory)

/-- `defaultVicgFactory.getPluginFactory`: look the namespace up in the map,
else fail with the plugin-not-found error. -/
def getPluginFactory (pf : FactoryMap) (namespc : String) : Except BuildError VicgPluginFactory :=
  match pf.lookup namespc with
  | some f => Except.ok f
  | none => Except.error (BuildError.pluginNotFound namespc)

/-- `defaultVicgFactory.createNewPlugin`: resolve the factory by the
declaration's name, then invoke it. -/
def createNewPlugin (pf : FactoryMap) (cfg : PluginConfig) (infra : InfraAPI) :
    Except BuildError VicgPlugin :=
  match getPluginFactory pf cfg.name with
  | Except.error e => Except.error e
  | Except.ok f => f cfg infra

/-- The construction loop of `defaultVicgFactory.New`: instantiate every
declaration in order, aborting on the first error. -/
def buildPlugins (pf : FactoryMap) : List PluginConfig → InfraAPI → Except BuildError (List VicgPlugin)
  | [], _ => Except.ok []
  | c :: cs, infra =>
    match createNewPlugin pf c infra with
    | Except.error e => Except.error e
    | Except.ok p =>
      match buildPlugins pf cs infra with
      | Except.error e => Except.error e
      | Except.ok ps => Except.ok (p :: ps)

/-- The `sort.Slice(plugins, ...)` call of `defaultVicgFactory.New`:
ascending by `Priority()`. -/
def sortPlugins (ps : List VicgPlugin) : List VicgPlugin :=
  sortSlice (fun p q => p.priority < q.priority) ps

/-- `defaultVicgFactory.New` up to the returned closure: construct all
plugins, sort them, and capture the ordered list (the closure body itself is
`runPipeline` below). On error the proxy returned by the Go code is nil:
`Except.error` carries no pipeline. -/
def vicgNew (pf : FactoryMap) (cfg : EndpointConfig) (infra : InfraAPI) :
    Except BuildError (List VicgPlugin) :=
  match buildPlugins pf cfg.plugins infra with
  | Except.error e => Except.error e
  | Except.ok plugins => Except.ok (sortPlugins plugins)

/-- A diagnostic record emitted through the injected logger: either the
first-error record `plugin index <priority>: <msg>` or the slow-plugin
record `The <priority> plugin cost <span> on <method> <path>`. -/
inductive Log : Type
  | errLog : Int → String → Log
  | slowLog : Int → Nat → String → String → Log
deriving DecidableEq, Repr

/-- Result of one pipeline execution. `req`/`resp`/`err` are the envelope
and error states of the source loop (the Go closure returns
`(response, err)`); `logs` records the logger calls and `trace` the
invocation counter value at each `HandleHTTPMessage` call — ghost
instrumentation making the order and number of invocations and of
diagnostics observable. -/
structure RunResult where
  req : Request
  resp : Response
  err : Option String
  logs : List Log
  trace : List Nat

/-- The plugin loop of the closure returned by `defaultVicgFactory.New`.
`timeOf k` is the wall-clock duration, in the fixed time units of the
5-unit threshold (`sec = 5 * time.Second`), measured by `time.Since(tick)`
around the `k`-th `HandleHTTPMessage` call: time is an input of the
environment, supplied as an oracle indexed by the invocation counter.
On an error the loop logs the plugin's priority with the message and
breaks; on success it logs a slow-plugin record when the duration strictly
exceeds the threshold, and continues. -/
def runPlugins : List VicgPlugin → (Nat → Nat) → Nat → Request → Response → RunResult
  | [], _, _, req, resp =>
    { req := req, resp := resp, err := none, logs := [], trace := [] }
  | p :: ps, timeOf, k, req, resp =>
    match p.handle req resp with
    | (req', resp', some msg) =>
      { req := req', resp := resp', err := some msg,
        logs := [Log.errLog p.priority msg], trace := [k] }
    | (req', resp', none) =>
      let span := timeOf k
      let here := if 5 < span then [Log.slowLog p.priority span req'.method req'.path] else []
      let rest := runPlugins ps timeOf (k+1) req' resp'
      { rest with logs := here ++ rest.logs, trace := k :: rest.trace }

/-- The fresh response envelope allocated at the top of the closure returned
by `defaultVicgFactory.New`. -/
def newResponse : Response :=
  { data := []
    isComplete := true
    metadata := { headers := [("Content-Type", ["application/VIID+JSON"])], statusCode := 200 } }

/-- The body of the proxy closure returned by `defaultVicgFactory.New`:
allocate the fresh envelope, run the sorted plugins, and return the
response together with the last error. -/
def runPipeline (ps : List VicgPlugin) (timeOf : Nat → Nat) (req : Request) : RunResult :=
  runPlugins ps timeOf 0 req newResponse

/-! ## `identifycheck` plugin (`plugin/identifycheck/identifycheck.go`) -/

/-- The identify-check `Plugin` produced by its factory with declaration
index `idx`: `Priority()` returns the index; `HandleHTTPMessage` errors
unless the `User-Identify` request header value has length exactly 20, and
touches neither envelope. -/
def idPlugin (idx : Int) : VicgPlugin :=
  { priority := idx
    handle := fun req resp =>
      (req, resp,
        if (req.headerGet "User-Identify").length ≠ 20
        then some "identify check failed" else none) }

/-- `identifycheck.Factory.New`: always succeeds, wiring the declaration's
index as the plugin priority. -/
def identifyFactory : VicgPluginFactory :=
  fun cfg _ => Except.ok (idPlugin cfg.index)

/-! ## Concrete fixtures

Input data used by witnesses and counterexamples: a plugin factory whose
plugins record their declaration name in the response payload (any Go value
implementing `VicgPluginFactory` is a legitimate input to
`DefaultVicgFactory`), a plugin that always succeeds without touching the
envelopes, one that always fails, and one that clears the `IsComplete`
flag and succeeds. -/

/-- A factory whose plugin appends its declaration name to the response
payload and succeeds, with the declared index as priority; the appearance
order of the names in the payload is the pipeline invocation order. -/
def tagFactory : VicgPluginFactory :=
  fun cfg _ => Except.ok
    { priority := cfg.index
      handle := fun req resp =>
        (req, { resp with data := resp.data ++ [(cfg.name, GoVal.null)] }, none) }

/-- A registry registering `tagFactory` under thirteen names. -/
def c1Factories : FactoryMap :=
  [("t0", tagFactory), ("t1", tagFactory), ("t2", tagFactory), ("t3", tagFactory),
   ("t4", tagFactory), ("t5", tagFactory), ("t6", tagFactory), ("t7", tagFactory),
   ("t8", tagFactory), ("t9", tagFactory), ("t10", tagFactory), ("t11", tagFactory),
   ("t12", tagFactory)]

/-- An endpoint declaring thirteen plugins; `t1` (priority 0) is declared
before `t7` (also priority 0). -/
def c1Cfgs : List PluginConfig :=
  [⟨"t0", 3⟩, ⟨"t1", 0⟩, ⟨"t2", 2⟩, ⟨"t3", 3⟩, ⟨"t4", 1⟩, ⟨"t5", 1⟩, ⟨"t6", 1⟩,
   ⟨"t7", 0⟩, ⟨"t8", 1⟩, ⟨"t9", 1⟩, ⟨"t10", 3⟩, ⟨"t11", 2⟩, ⟨"t12", 2⟩]

/-- A plugin that touches nothing and succeeds. -/
def noopPlugin : VicgPlugin :=
  { priority := 7, handle := fun req resp => (req, resp, none) }

/-- A plugin that sets the status code to 500 and fails. -/
def failPlugin : VicgPlugin :=
  { priority := 9
    handle := fun req resp =>
      (req, { resp with metadata := { resp.metadata with statusCode := 500 } },
       some "boom") }

/-- A plugin that clears the `IsComplete` flag and succeeds. -/
def flagPlugin : VicgPlugin :=
  { priority := 1
    handle := fun req resp => (req, { resp with isComplete := false }, none) }

/-! ## Executor lemmas -/

/-- Decomposition of the plugin loop over a list append: if the first part
errors the loop never reaches the second; otherwise the second part runs
from the first part's envelope states, and logs and trace concatenate. -/
theorem runPlugins_append (xs ys : List VicgPlugin) (t : Nat → Nat) (k : Nat)
    (req : Request) (resp : Response) :
    runPlugins (xs ++ ys) t k req resp =
      (let s := runPlugins xs t k req resp
       match s.err with
       | some _ => s
       | none =>
         let s2 := runPlugins ys t (k + xs.length) s.req s.resp
         { s2 with logs := s.logs ++ s2.logs, trace := s.trace ++ s2.trace }) := by
  induction xs generalizing k req resp with
  | nil => simp [runPlugins]
  | cons p ps ih =>
    simp only [List.cons_append, runPlugins]
    rcases hph : p.handle req resp with ⟨r', q', e⟩
    cases e with
    | some msg => simp [hph]
    | none =>
      simp only [hph, List.append_eq]
      rw [ih]
      have hkl : k + (ps.length + 1) = k + 1 + ps.length := by omega
      cases hrest : (runPlugins ps t (k + 1) r' q').err <;>
        simp [hrest, hkl]

/-- When the loop exhausts the list without error, the invocation trace is
exactly one invocation per plugin, in list order. -/
theorem runPlugins_trace_of_ok (xs : List VicgPlugin) (t : Nat → Nat) (k : Nat)
    (req : Request) (resp : Response)
    (h : (runPlugins xs t k req resp).err = none) :
    (runPlugins xs t k req resp).trace = List.range' k xs.length := by
  induction xs generalizing k req resp with
  | nil => simp [runPlugins]
  | cons p ps ih =>
    simp only [runPlugins] at h ⊢
    rcases hph : p.handle req resp with ⟨r', q', e⟩
    cases e with
    | some msg => simp [hph] at h
    | none =>
      simp only [hph] at h ⊢
      simp only [List.length_cons, List.range'_succ]
      simp [ih (k+1) r' q' (by simpa using h)]

/-- Every `HandleHTTPMessage` that leaves the `IsComplete` flag alone leaves
it alone across the whole loop, error or not. -/
theorem runPlugins_isComplete (xs : List VicgPlugin) (t : Nat → Nat) (k : Nat)
    (req : Request) (resp : Response)
    (h : ∀ p ∈ xs, ∀ r q, ((p.handle r q).2.1).isComplete = q.isComplete) :
    (runPlugins xs t k req resp).resp.isComplete = resp.isComplete := by
  induction xs generalizing k req resp with
  | nil => simp [runPlugins]
  | cons p ps ih =>
    simp only [runPlugins]
    rcases hph : p.handle req resp with ⟨r', q', e⟩
    have hq : q'.isComplete = resp.isComplete := by
      have := h p (by simp) req resp
      rw [hph] at this
      exact this
    cases e with
    | some msg => simpa [hph] using hq
    | none =>
      simp only [hph]
      rw [ih (k+1) r' q' (fun p' hp' => h p' (by simp [hp']))]
      exact hq

/-- When every plugin, at the envelope states it actually receives, returns
no error, the loop errors nowhere. -/
theorem runPlugins_ok_of_steps (xs : List VicgPlugin) (t : Nat → Nat) (k : Nat)
    (req : Request) (resp : Response)
    (h : ∀ i (hi : i < xs.length),
      ((xs.get ⟨i, hi⟩).handle (runPlugins (xs.take i) t k req resp).req
        (runPlugins (xs.take i) t k req resp).resp).2.2 = none) :
    (runPlugins xs t k req resp).err = none := by
  induction xs generalizing k req resp with
  | nil => simp [runPlugins]
  | cons p ps ih =>
    have h0 := h 0 (by simp)
    simp only [List.take_zero, List.get] at h0
    simp only [runPlugins] at h0
    rcases hph : p.handle req resp with ⟨r', q', e⟩
    rw [hph] at h0
    simp at h0
    subst h0
    simp only [runPlugins, hph]
    apply ih (k+1) r' q'
    intro i hi
    have hi' := h (i+1) (by simpa using Nat.succ_lt_succ hi)
    simp only [List.take_succ_cons, List.get] at hi'
    simp only [runPlugins, hph] at hi'
    exact hi'

/-- Prefix of `buildPlugins` all succeeding followed by a failing
declaration: the whole build returns that first error. -/
theorem buildPlugins_first_error (pf : FactoryMap) (cs₁ : List PluginConfig)
    (c : PluginConfig) (cs₂ : List PluginConfig) (infra : InfraAPI)
    (l : List VicgPlugin) (e : BuildError)
    (h1 : buildPlugins pf cs₁ infra = Except.ok l)
    (h2 : createNewPlugin pf c infra = Except.error e) :
    buildPlugins pf (cs₁ ++ c :: cs₂) infra = Except.error e := by
  induction cs₁ generalizing l with
  | nil => simp [buildPlugins, h2]
  | cons c₀ cs ih =>
    simp only [buildPlugins, List.cons_append] at h1 ⊢
    cases hc0 : createNewPlugin pf c₀ infra with
    | error e0 => rw [hc0] at h1; simp at h1
    | ok p0 =>
      rw [hc0] at h1
      cases hcs : buildPlugins pf cs infra with
      | error e0 => rw [hcs] at h1; simp at h1
      | ok ps0 => simp [ih ps0 hcs]

/-! ## Claims -/

/-- C2: if the plugin at sorted position `k` is the first whose
`HandleHTTPMessage` returns a non-nil error, the pipeline invokes exactly
the plugins at positions `0..k`, each once and in order, logs the failing
plugin's priority with the message, and returns that error together with
the response exactly as mutated by the plugins `0..k-1` plus whatever
mutation plugin `k` made before erroring — nothing is rolled back. -/
theorem pipeline_first_error_short_circuits
    (ps₁ : List VicgPlugin) (p : VicgPlugin) (ps₂ : List VicgPlugin)
    (t : Nat → Nat) (req : Request) (r' : Request) (q' : Response) (e : String)
    (hpre : (runPlugins ps₁ t 0 req newResponse).err = none)
    (hp : p.handle (runPlugins ps₁ t 0 req newResponse).req
            (runPlugins ps₁ t 0 req newResponse).resp = (r', q', some e)) :
    runPipeline (ps₁ ++ p :: ps₂) t req =
      { req := r', resp := q', err := some e,
        logs := (runPlugins ps₁ t 0 req newResponse).logs ++ [Log.errLog p.priority e],
        trace := List.range (ps₁.length + 1) } := by
  have htr := runPlugins_trace_of_ok ps₁ t 0 req newResponse hpre
  unfold runPipeline
  rw [runPlugins_append]
  simp only [hpre, Nat.zero_add]
  simp [runPlugins, hp, htr, List.range_succ, List.range_eq_range']

/-- Witness for C2: a three-plugin pipeline whose middle plugin fails with
status-code mutation; only positions 0 and 1 are invoked, the 500 mutation
survives in the returned response. -/
theorem pipeline_first_error_short_circuits_witness :
    runPipeline [noopPlugin, failPlugin, noopPlugin] (fun _ => 0) default =
      { req := default
        resp := { data := [], isComplete := true,
                  metadata := { headers := [("Content-Type", ["application/VIID+JSON"])],
                                statusCode := 500 } }
        err := some "boom"
        logs := [Log.errLog 9 "boom"]
        trace := [0, 1] } := by
  exact pipeline_first_error_short_circuits [noopPlugin] failPlugin [noopPlugin]
    (fun _ => 0) default default
    { data := [], isComplete := true,
      metadata := { headers := [("Content-Type", ["application/VIID+JSON"])],
                    statusCode := 500 } }
    "boom" rfl rfl

/-- C3: the builder aborts at the first failing plugin construction, the
endpoint gets no pipeline (the error carries none), and a declaration whose
name is not registered fails with the plugin-not-found error. -/
theorem build_aborts_on_first_failure
    (pf : FactoryMap) (cs₁ : List PluginConfig) (c : PluginConfig)
    (cs₂ : List PluginConfig) (infra : InfraAPI) (l : List VicgPlugin) (e : BuildError)
    (h1 : buildPlugins pf cs₁ infra = Except.ok l)
    (h2 : createNewPlugin pf c infra = Except.error e) :
    vicgNew pf ⟨cs₁ ++ c :: cs₂⟩ infra = Except.error e ∧
    (pf.lookup c.name = none → e = BuildError.pluginNotFound c.name) := by
  constructor
  · simp [vicgNew, buildPlugins_first_error pf cs₁ c cs₂ infra l e h1 h2]
  · intro hlk
    rw [createNewPlugin, getPluginFactory, hlk] at h2
    exact (Except.error.injEq _ _ ▸ congrArg id h2).symm ▸ rfl

/-- Witness for C3: an endpoint declaring a registered, an unregistered and
a registered plugin builds to the not-found error of the middle one. -/
theorem build_aborts_on_first_failure_witness :
    vicgNew [("id", identifyFactory)]
      ⟨[⟨"id", 1⟩, ⟨"nope", 2⟩, ⟨"id", 3⟩]⟩ () =
      Except.error (BuildError.pluginNotFound "nope") ∧
    (BuildError.pluginNotFound "nope" = BuildError.pluginNotFound "nope") := by
  have h := build_aborts_on_first_failure [("id", identifyFactory)]
    [⟨"id", 1⟩] ⟨"nope", 2⟩ [⟨"id", 3⟩] () [idPlugin 1]
    (BuildError.pluginNotFound "nope") rfl rfl
  exact ⟨h.1, h.2 rfl⟩

/-- C4: every pipeline execution starts from the same fresh response
envelope, independent of the request and of earlier executions: empty
payload, status 200, exactly the default content-type header, and the
complete flag set. -/
theorem pipeline_fresh_envelope (ps : List VicgPlugin) (t : Nat → Nat) (req : Request) :
    runPipeline ps t req = runPlugins ps t 0 req newResponse ∧
    newResponse.data = [] ∧
    newResponse.metadata.statusCode = 200 ∧
    newResponse.metadata.headers = [("Content-Type", ["application/VIID+JSON"])] ∧
    newResponse.isComplete = true :=
  ⟨rfl, rfl, rfl, rfl, rfl⟩

/-- C5: with the identify-check plugin first, a request whose
`User-Identify` header value does not have length 20 makes the pipeline
return the check error with the untouched default envelope and invokes no
later plugin; a value of length exactly 20 passes through with both
envelopes unmodified and the pipeline proceeds to the next plugin. -/
theorem identify_check_gate (i : Int) (rest : List VicgPlugin) (t : Nat → Nat) (req : Request) :
    ((req.headerGet "User-Identify").length ≠ 20 →
      runPipeline (idPlugin i :: rest) t req =
        { req := req, resp := newResponse, err := some "identify check failed",
          logs := [Log.errLog i "identify check failed"], trace := [0] }) ∧
    ((req.headerGet "User-Identify").length = 20 →
      (idPlugin i).handle req newResponse = (req, newResponse, none) ∧
      runPipeline (idPlugin i :: rest) t req =
        (let s2 := runPlugins rest t 1 req newResponse
         { s2 with
           logs := (if 5 < t 0 then [Log.slowLog i (t 0) req.method req.path] else []) ++ s2.logs,
           trace := 0 :: s2.trace })) := by
  constructor
  · intro h
    simp [runPipeline, runPlugins, idPlugin, h]
  · intro h
    refine ⟨by simp [idPlugin, h], ?_⟩
    simp [runPipeline, runPlugins, idPlugin, h]

/-- Witness for C5: a 19-character identity token is rejected with the
default envelope and the trailing plugin never runs; a 20-character token
passes and the trailing plugin runs. -/
theorem identify_check_gate_witness :
    runPipeline [idPlugin 3, noopPlugin] (fun _ => 0)
      { (default : Request) with headers := [("User-Identify", ["0123456789012345678"])] } =
      { req := { (default : Request) with headers := [("User-Identify", ["0123456789012345678"])] }
        resp := newResponse
        err := some "identify check failed"
        logs := [Log.errLog 3 "identify check failed"]
        trace := [0] } ∧
    runPipeline [idPlugin 3, noopPlugin] (fun _ => 0)
      { (default : Request) with headers := [("User-Identify", ["01234567890123456789"])] } =
      { req := { (default : Request) with headers := [("User-Identify", ["01234567890123456789"])] }
        resp := newResponse
        err := none
        logs := []
        trace := [0, 1] } := by
  constructor
  · exact (identify_check_gate 3 [noopPlugin] (fun _ => 0)
      { (default : Request) with headers := [("User-Identify", ["0123456789012345678"])] }).1
      (by decide)
  · exact ((identify_check_gate 3 [noopPlugin] (fun _ => 0)
      { (default : Request) with headers := [("User-Identify", ["01234567890123456789"])] }).2
      (by decide)).2

/-- C6 counterexample: a pipeline whose only plugin returns nil (also at
the state it actually receives) but clears `IsComplete`; the execution
returns a nil error yet a response whose `IsComplete` flag is false,
falsifying the claim that it is always true. -/
theorem pipeline_all_ok_complete_cex :
    (flagPlugin.handle default newResponse).2.2 = none ∧
    (runPipeline [flagPlugin] (fun _ => 0) default).err = none ∧
    (runPipeline [flagPlugin] (fun _ => 0) default).resp.isComplete = false :=
  ⟨rfl, rfl, rfl⟩

/-- C6 amended: when every plugin returns nil at the envelope states it
actually receives, the pipeline invokes every plugin exactly once in list
order and returns a nil error — flag-clearing plugins included; the
returned response's `IsComplete` flag is moreover true provided no plugin's
handler mutates it. -/
theorem pipeline_all_ok_amended (ps : List VicgPlugin) (t : Nat → Nat) (req : Request)
    (h1 : ∀ i (hi : i < ps.length),
      ((ps.get ⟨i, hi⟩).handle (runPlugins (ps.take i) t 0 req newResponse).req
        (runPlugins (ps.take i) t 0 req newResponse).resp).2.2 = none) :
    (runPipeline ps t req).err = none ∧
    (runPipeline ps t req).trace = List.range ps.length ∧
    ((∀ p ∈ ps, ∀ r q, ((p.handle r q).2.1).isComplete = q.isComplete) →
      (runPipeline ps t req).resp.isComplete = true) := by
  have hok := runPlugins_ok_of_steps ps t 0 req newResponse h1
  refine ⟨hok, ?_, ?_⟩
  · have := runPlugins_trace_of_ok ps t 0 req newResponse hok
    simpa [runPipeline, List.range_eq_range'] using this
  · intro h2
    have := runPlugins_isComplete ps t 0 req newResponse h2
    simpa [runPipeline, newResponse] using this

/-- Witness for C6 amended: the flag-clearing pipeline of the
counterexample still runs its plugin exactly once with nil error, and two
flag-preserving plugins run once each with nil error and the complete flag
still set. -/
theorem pipeline_all_ok_amended_witness :
    ((runPipeline [flagPlugin] (fun _ => 0) default).err = none ∧
     (runPipeline [flagPlugin] (fun _ => 0) default).trace = List.range 1) ∧
    (runPipeline [noopPlugin, noopPlugin] (fun _ => 0) default).err = none ∧
    (runPipeline [noopPlugin, noopPlugin] (fun _ => 0) default).trace = List.range 2 ∧
    (runPipeline [noopPlugin, noopPlugin] (fun _ => 0) default).resp.isComplete = true := by
  have hflag := pipeline_all_ok_amended [flagPlugin] (fun _ => 0) default (by decide)
  have hnoop := pipeline_all_ok_amended [noopPlugin, noopPlugin] (fun _ => 0) default (by decide)
  exact ⟨⟨hflag.1, hflag.2.1⟩,
    hnoop.1, hnoop.2.1,
    hnoop.2.2 (by intro p hp r q
                  simp only [List.mem_cons, List.not_mem_nil, or_false] at hp
                  rcases hp with h | h <;> subst h <;> rfl)⟩

/-- C8: a plugin that returns nil after `span = timeOf k` units contributes
exactly one slow-plugin record — naming its priority, the elapsed time and
the request method and path — when the span strictly exceeds the 5-unit
threshold and none otherwise, and either way execution continues with the
remaining plugins. -/
theorem pipeline_slow_diagnostic
    (ps₁ : List VicgPlugin) (p : VicgPlugin) (ps₂ : List VicgPlugin)
    (t : Nat → Nat) (req : Request) (r' : Request) (q' : Response)
    (hpre : (runPlugins ps₁ t 0 req newResponse).err = none)
    (hp : p.handle (runPlugins ps₁ t 0 req newResponse).req
            (runPlugins ps₁ t 0 req newResponse).resp = (r', q', none)) :
    runPipeline (ps₁ ++ p :: ps₂) t req =
      (let s := runPlugins ps₁ t 0 req newResponse
       let s2 := runPlugins ps₂ t (ps₁.length + 1) r' q'
       { s2 with
         logs := s.logs ++
           ((if 5 < t ps₁.length
             then [Log.slowLog p.priority (t ps₁.length) r'.method r'.path] else []) ++ s2.logs)
         trace := s.trace ++ (ps₁.length :: s2.trace) }) := by
  unfold runPipeline
  rw [runPlugins_append]
  simp only [hpre, Nat.zero_add]
  simp [runPlugins, hp]

/-- Witness for C8: a 6-unit success emits exactly one slow record with the
plugin's priority; a 1-unit success emits none; both continue normally. -/
theorem pipeline_slow_diagnostic_witness :
    runPipeline [noopPlugin] (fun _ => 6) default =
      { req := default, resp := newResponse, err := none,
        logs := [Log.slowLog 7 6 "" ""], trace := [0] } ∧
    runPipeline [noopPlugin] (fun _ => 1) default =
      { req := default, resp := newResponse, err := none,
        logs := [], trace := [0] } := by
  constructor
  · exact pipeline_slow_diagnostic [] noopPlugin [] (fun _ => 6) default default newResponse rfl rfl
  · exact pipeline_slow_diagnostic [] noopPlugin [] (fun _ => 1) default default newResponse rfl rfl

/-- C9: `Response.Write` replaces `Data` wholesale with the decoded map and
returns the byte count with a nil error when unmarshalling succeeds; when it
fails, it returns zero and the error and leaves every field of the response,
`Data` included, unchanged. -/
theorem response_write_spec (resp : Response) (b : String) :
    (∀ m, jsonUnmarshalObject b = Except.ok m →
      resp.write b = ({ resp with data := m }, (b.length : Int), none)) ∧
    (∀ er, jsonUnmarshalObject b = Except.error er →
      resp.write b = (resp, 0, some er)) := by
  constructor <;> intro x h <;> simp [Response.write, h]

/-- Witness for C9: writing the two-byte empty JSON object succeeds with
count 2; writing a non-JSON byte fails with count 0 and an untouched
response. -/
theorem response_write_spec_witness :
    (default : Response).write "\x7b\x7d" =
      ({ (default : Response) with data := [] }, 2, none) ∧
    (default : Response).write "x" =
      ((default : Response), 0,
       some "unexpected end of JSON input or invalid character") := by
  constructor
  · exact (response_write_spec default "\x7b\x7d").1 [] rfl
  · exact (response_write_spec default "x").2 _ rfl

/-- C10: when the body is non-nil, `CloneRequest` drains and closes the
caller's body object and re-points `r.Body` at a fresh reader over the
drained bytes, leaving every other field of `r` unchanged; when the body is
nil, `r` and the heap are left entirely unchanged. -/
theorem clone_request_body_mutation (r : Request) (heap : List BodyObj) :
    (∀ a obj, r.body = some a → heap.getD a default = obj →
      (cloneRequest r heap).2.1 = { r with body := some heap.length } ∧
      (cloneRequest r heap).1 =
        (heap.set a { obj with pos := obj.content.length, closed := true })
          ++ [{ content := obj.content.drop obj.pos, pos := 0, closed := false },
              { content := obj.content.drop obj.pos, pos := 0, closed := false }]) ∧
    (r.body = none → (cloneRequest r heap).2.1 = r ∧ (cloneRequest r heap).1 = heap) := by
  constructor
  · intro a obj ha hobj
    subst hobj
    constructor
    · simp [cloneRequest, ha, List.length_set]
    · simp [cloneRequest, ha]
  · intro h
    exact ⟨by simp [cloneRequest, h], by simp [cloneRequest, h]⟩

/-- Witness for C10: a partly-read three-byte body is drained to position 3
and closed, and the caller's request is re-pointed at a fresh reader holding
the two unread bytes; no other field moves. -/
theorem clone_request_body_mutation_witness :
    (cloneRequest { (default : Request) with body := some 0 }
        [{ content := [10, 20, 30], pos := 1, closed := false }]).2.1 =
      { (default : Request) with body := some 1 } ∧
    (cloneRequest { (default : Request) with body := some 0 }
        [{ content := [10, 20, 30], pos := 1, closed := false }]).1 =
      [{ content := [10, 20, 30], pos := 3, closed := true },
       { content := [20, 30], pos := 0, closed := false },
       { content := [20, 30], pos := 0, closed := false }] := by
  have h := (clone_request_body_mutation { (default : Request) with body := some 0 }
      [{ content := [10, 20, 30], pos := 1, closed := false }]).1 0
      { content := [10, 20, 30], pos := 1, closed := false } rfl rfl
  exact ⟨h.1, h.2⟩

/-- A request whose reference-typed fields are all non-nil pointers. -/
def c7Req : Request :=
  { method := "GET", url := some 0, query := some 1, path := "/v", body := none,
    params := [("p", "q")], headers := [("A", ["b"])], data := some 2,
    privData := some 3, reserved := some 4, remoteAddr := "10.0.0.1:99",
    contentLength := 7 }

/-- C7: evaluated at `c7Req`, the clone returned by `CloneRequest` holds the
very same `URL` and `Query` pointers as the original (so mutations through
one are observable through the other), and the three free-form maps of the
original are not carried into the clone at all — the claimed full deep copy
with no shared pointer does not hold. -/
theorem clone_request_shares_pointers :
    (cloneRequest c7Req []).2.2.url = c7Req.url ∧ c7Req.url = some 0 ∧
    (cloneRequest c7Req []).2.2.query = c7Req.query ∧ c7Req.query = some 1 ∧
    (cloneRequest c7Req []).2.2.data = none ∧ c7Req.data = some 2 ∧
    (cloneRequest c7Req []).2.2.privData = none ∧ c7Req.privData = some 3 ∧
    (cloneRequest c7Req []).2.2.reserved = none ∧ c7Req.reserved = some 4 := by
  decide

/-- C1: the thirteen-declaration endpoint `c1Cfgs` builds a pipeline whose
priorities are sorted ascending, but the two priority-0 plugins `t1`
(declared at position 1) and `t7` (declared at position 7) are invoked in
the order `t7` before `t1`: `sort.Slice` (pdqsort) does not keep the
relative declaration order of equal priorities, so the stable-sort claim
fails on this input. -/
theorem new_sort_not_stable :
    c1Cfgs.map PluginConfig.name =
      ["t0", "t1", "t2", "t3", "t4", "t5", "t6", "t7", "t8", "t9", "t10", "t11", "t12"] ∧
    c1Cfgs.map PluginConfig.index = [3, 0, 2, 3, 1, 1, 1, 0, 1, 1, 3, 2, 2] ∧
    (vicgNew c1Factories ⟨c1Cfgs⟩ ()).map (fun ps => ps.map VicgPlugin.priority) =
      Except.ok [0, 0, 1, 1, 1, 1, 1, 2, 2, 2, 3, 3, 3] ∧
    (vicgNew c1Factories ⟨c1Cfgs⟩ ()).map
        (fun ps => (runPipeline ps (fun _ => 0) default).resp.data.map Prod.fst) =
      Except.ok ["t7", "t1", "t9", "t4", "t5", "t6", "t8", "t2", "t11", "t12", "t3", "t0", "t10"] :=
  ⟨rfl, rfl, rfl, rfl⟩

end Lura
